import Mathlib

/-
Verification of the runtime scene-state controller of the interactive 3D
storefront page (source: src/unnamed/part_000).

The development shallowly embeds, over the real numbers:
  * the sun trajectory model (`getSunPosition`, `smoothstep`, the config and
    color constants);
  * the exponential blend engine used for every light/material/camera
    transition (`blendStep`, `blendIter`);
  * the light/material switch controller: the light-group registry, the
    manual override toggle bound to the `L` key (`pressL`), and the throttled
    sun-cycle tick with its automatic day/night target switching
    (`sunCycleTick`, `autoToggleTargets`);
  * the simulated-clock advance executed each frame (`advanceSimHour`);
  * the camera-mode controller: the focus-mode state machine
    (`enterFocusMode`, `exitFocusMode`, `finishFocusReturn`), the `C`-key
    camera-mode toggle (`pressC`), and the per-frame camera update
    (`frameStep`).

JavaScript numbers are modelled as real numbers; `Math.pow` is `Real.rpow`,
`Math.sin`/`Math.cos`/`Math.sqrt` are the Mathlib functions.  DOM access,
console logging, asset loading and the rendering calls of the source have no
observable effect on the state modelled here and are omitted.  The external
OrbitControls collaborator is represented only by its `enabled` flag and its
`target` vector, which is all the controller code reads or writes.
-/

/-- A 3-component vector, modelling `THREE.Vector3`. -/
structure V3 where
  x : ℝ
  y : ℝ
  z : ℝ

/-- Componentwise linear interpolation, modelling `THREE.Vector3.lerp`:
`this.x += (v.x - this.x) * alpha`, per component. -/
noncomputable def V3.lerp (a b : V3) (alpha : ℝ) : V3 :=
  ⟨a.x + (b.x - a.x) * alpha, a.y + (b.y - a.y) * alpha, a.z + (b.z - a.z) * alpha⟩

/-- Euclidean distance, modelling `THREE.Vector3.distanceTo`. -/
noncomputable def V3.dist (a b : V3) : ℝ :=
  Real.sqrt ((b.x - a.x) ^ 2 + (b.y - a.y) ^ 2 + (b.z - a.z) ^ 2)

/-- Euclidean norm, modelling `THREE.Vector3.length`. -/
noncomputable def V3.length (a : V3) : ℝ :=
  Real.sqrt (a.x ^ 2 + a.y ^ 2 + a.z ^ 2)

/-- An RGB color, modelling `THREE.Color`.  Components are the 8-bit channels
of the source's hex literals normalized to `[0, 1]`. -/
structure RGB where
  r : ℝ
  g : ℝ
  b : ℝ

/-- Componentwise interpolation, modelling `THREE.Color.lerp`:
`this.r += (color.r - this.r) * alpha`, per component. -/
noncomputable def RGB.lerp (a b : RGB) (alpha : ℝ) : RGB :=
  ⟨a.r + (b.r - a.r) * alpha, a.g + (b.g - a.g) * alpha, a.b + (b.b - a.b) * alpha⟩

/-- Euclidean distance between colors, read as points of RGB space; used to
state which of two keyframe colors a blended color is nearer to. -/
noncomputable def RGB.dist (a b : RGB) : ℝ :=
  Real.sqrt ((b.r - a.r) ^ 2 + (b.g - a.g) ^ 2 + (b.b - a.b) ^ 2)

/-- The fixed sun-cycle configuration type (`sunCycleConfig` object shape). -/
structure SunCycleConfig where
  sunrise : ℝ
  sunset : ℝ
  center : V3
  radius : ℝ

/-- Source constant `sunCycleConfig`: sunrise 6 AM, sunset 7 PM, arc center
`(5, 0, 2)`, radius `20`. -/
noncomputable def sunCycleConfig : SunCycleConfig :=
  { sunrise := 6, sunset := 19, center := ⟨5, 0, 2⟩, radius := 20 }

/-- Source constant `sunColors`: the color-temperature keyframes
dawn `0xff8c42`, morning `0xffb770`, noon `0xfff4e0`. -/
noncomputable def sunColors : RGB × RGB × RGB :=
  (⟨255 / 255, 140 / 255, 66 / 255⟩,
   ⟨255 / 255, 183 / 255, 112 / 255⟩,
   ⟨255 / 255, 244 / 255, 224 / 255⟩)

/-- Source function `smoothstep`: clamp to `[0, 1]`, then `t * t * (3 - 2 * t)`. -/
noncomputable def smoothstep (t : ℝ) : ℝ :=
  let t := max 0 (min 1 t)
  t * t * (3 - 2 * t)

/-- The sun sample returned by `getSunPosition`. -/
structure SunSample where
  position : V3
  intensity : ℝ
  color : RGB

/-- Source function `getSunPosition(hour)`: position, intensity and color of
the sun for a decimal hour.  Inside `[sunrise, sunset]` the hour is normalized
to `t`, biased by `t ^ 0.8`, mapped to an angle in `[0, π]`; the position is a
low parametric arc, the intensity ramps over the 2-hour dawn/dusk edges via
`smoothstep` and holds at `6` at midday, and the color interpolates
dawn→morning below elevation `0.4` and morning→noon above it, the latter
eased by `ct ^ 2.5` and capped at `0.35`.  Outside the range: intensity `0`,
a fixed below-horizon position, dawn color. -/
noncomputable def getSunPosition (hour : ℝ) : SunSample :=
  let sunrise := sunCycleConfig.sunrise
  let sunset := sunCycleConfig.sunset
  let center := sunCycleConfig.center
  let radius := sunCycleConfig.radius
  let dawnDuration : ℝ := 2
  let duskDuration : ℝ := 2
  if sunrise ≤ hour ∧ hour ≤ sunset then
    let t := (hour - sunrise) / (sunset - sunrise)
    let biasedT := t ^ (0.8 : ℝ)
    let angle := biasedT * Real.pi
    let position : V3 :=
      ⟨center.x + radius * Real.cos angle * 0.1,
       center.y + radius * Real.sin angle * 0.6,
       center.z + radius * 0.7⟩
    let hoursFromSunrise := hour - sunrise
    let hoursFromSunset := sunset - hour
    let intensity :=
      if hoursFromSunrise < dawnDuration then 6 * smoothstep (hoursFromSunrise / dawnDuration)
      else if hoursFromSunset < duskDuration then 6 * smoothstep (hoursFromSunset / duskDuration)
      else 6
    let elevation := Real.sin angle
    let color :=
      if elevation < 0.4 then
        RGB.lerp sunColors.1 sunColors.2.1 (smoothstep (elevation / 0.4))
      else
        RGB.lerp sunColors.2.1 sunColors.2.2 (((elevation - 0.4) / 0.6) ^ (2.5 : ℝ) * 0.35)
    ⟨position, intensity, color⟩
  else
    ⟨⟨center.x, -5, center.z + radius * 0.7⟩, 0, sunColors.1⟩

/-- One step of the exponential blend engine.  The frame loop computes
`lerpFactor = 1 - Math.pow(rate, delta)` (rate `0.01` for lights/materials,
`0.05` for the sun, `0.001` for mouse-follow, `lerpBase` for focus) and every
`lerpLight`/`lerpMaterial` closure advances
`current += (target - current) * lerpFactor`. -/
noncomputable def blendStep (current target rate dt : ℝ) : ℝ :=
  current + (target - current) * (1 - rate ^ dt)

/-- Repeated application of `blendStep` with a fixed target, rate and
time-step: the per-frame advance of one blended scalar over `n` frames. -/
noncomputable def blendIter (current target rate dt : ℝ) : ℕ → ℝ
  | 0 => current
  | n + 1 => blendStep (blendIter current target rate dt n) target rate dt

/-- Per-frame simulated-clock advance (animate loop):
`simHour += delta * simSpeed / 60`, then one conditional `-= 24` wrap and one
conditional `+= 24` wrap. -/
noncomputable def advanceSimHour (simHour delta simSpeed : ℝ) : ℝ :=
  let h := simHour + delta * simSpeed / 60
  let h := if 24 ≤ h then h - 24 else h
  if h < 0 then h + 24 else h

/-- One entry of the light-group registry (`roomLights` / `practicalLights`):
`{ light, onIntensity, current, target }`.  The `isSun` flag models the
identity test `l.light === window.sunLight` used to exempt the sun from the
on/off groups. -/
structure LightEntry where
  isSun : Bool
  onIntensity : ℝ
  current : ℝ
  target : ℝ

/-- One entry of the material registry:
`{ material, onIntensity, offIntensity, current, target }`. -/
structure MaterialEntry where
  onIntensity : ℝ
  offIntensity : ℝ
  current : ℝ
  target : ℝ

/-- The `window.lightSwitch` registry: the on/off flag plus the three groups. -/
structure LightSwitchState where
  isOn : Bool
  roomLights : List LightEntry
  practicalLights : List LightEntry
  materials : List MaterialEntry

/-- The sun-cycle / switch-controller state (`sunCycle` object fields used by
the toggle and tick logic, plus the `window.lightSwitch` registry).  The
`currentPosition`/`currentIntensity`/`currentColor` blend state advanced
every frame is modelled separately by `blendStep`/`blendIter`. -/
structure SunLightState where
  override : Bool
  isNight : Bool
  targetPosition : V3
  targetIntensity : ℝ
  targetColor : RGB
  lightSwitch : LightSwitchState

/-- The night test `intensity < 0.1` applied to a sun sample's intensity. -/
noncomputable def isNightOf (intensity : ℝ) : Bool :=
  if intensity < 0.1 then true else false

/-- The target update run by the sun-cycle auto-toggle when the day/night
state flips and override is not active (animate loop): room-light targets go
to `onIntensity` by day and to the `0.02` floor by night (the sun entry is
skipped — the sun cycle drives it directly), practical-light targets go
oppositely, material targets go to their on/off intensities. -/
noncomputable def autoToggleTargets (isOn : Bool) (ls : LightSwitchState) : LightSwitchState :=
  { ls with
    isOn := isOn
    roomLights := ls.roomLights.map fun l =>
      if l.isSun then l else { l with target := if isOn then l.onIntensity else 0.02 }
    practicalLights := ls.practicalLights.map fun l =>
      { l with target := if isOn then 0 else l.onIntensity }
    materials := ls.materials.map fun m =>
      { m with target := if isOn then m.onIntensity else m.offIntensity } }

/-- The target update run by the first press of the `L` key: flip `on`, room
lights to `onIntensity`/`0`, practical lights oppositely, materials to their
on/off intensities.  No entry is skipped here: the manual toggle also writes
the sun entry's target. -/
noncomputable def manualToggle (ls : LightSwitchState) : LightSwitchState :=
  let isOn := !ls.isOn
  { ls with
    isOn := isOn
    roomLights := ls.roomLights.map fun l =>
      { l with target := if isOn then l.onIntensity else 0 }
    practicalLights := ls.practicalLights.map fun l =>
      { l with target := if isOn then 0 else l.onIntensity }
    materials := ls.materials.map fun m =>
      { m with target := if isOn then m.onIntensity else m.offIntensity } }

/-- The `L`-key handler: if override is active, a press merely clears it;
otherwise a press activates override and runs the manual toggle. -/
noncomputable def pressL (st : SunLightState) : SunLightState :=
  if st.override then { st with override := false }
  else { st with override := true, lightSwitch := manualToggle st.lightSwitch }

/-- The throttled sun-cycle tick of the animate loop: sample the trajectory
at the current hour, write the sun's targets, recompute the night state, and
— when it flipped and override is not active — run the automatic day/night
target switch with `on = !isNight`. -/
noncomputable def sunCycleTick (currentHour : ℝ) (st : SunLightState) : SunLightState :=
  let sun := getSunPosition currentHour
  let wasNight := st.isNight
  let isNight := isNightOf sun.intensity
  let st := { st with
    targetPosition := sun.position
    targetIntensity := sun.intensity
    targetColor := sun.color
    isNight := isNight }
  if !st.override && (wasNight != isNight) then
    { st with lightSwitch := autoToggleTargets (!isNight) st.lightSwitch }
  else st

/-- The room-light registry as initialized in the source: ambient `0.15`,
sun `6` (the entry skipped by the auto-toggle), hemisphere `0.6`, two wall
fills `4`, ceiling fill `3`. -/
noncomputable def initialRoomLights : List LightEntry :=
  [⟨false, 0.15, 0.15, 0.15⟩,
   ⟨true, 6, 6, 6⟩,
   ⟨false, 0.6, 0.6, 0.6⟩,
   ⟨false, 4, 4, 4⟩,
   ⟨false, 4, 4, 4⟩,
   ⟨false, 3, 3, 3⟩]

/-- The practical-light registry as initialized in the source: lamp point
`3`, lamp spots `15`/`15`, sconces `5`/`5`; all start at `0`. -/
noncomputable def initialPracticalLights : List LightEntry :=
  [⟨false, 3, 0, 0⟩, ⟨false, 15, 0, 0⟩, ⟨false, 15, 0, 0⟩, ⟨false, 5, 0, 0⟩, ⟨false, 5, 0, 0⟩]

/-- A representative material entry: `envMapIntensity` `0.9` as the on value,
`0.95` as the dimmed off value (the registry's size depends on the loaded
model, so a single-entry list stands for it in concrete computations). -/
noncomputable def initialMaterials : List MaterialEntry :=
  [⟨0.9, 0.95, 0.9, 0.9⟩]

/-- The `window.lightSwitch` registry as initialized in the source. -/
noncomputable def initialLightSwitch : LightSwitchState :=
  { isOn := true
    roomLights := initialRoomLights
    practicalLights := initialPracticalLights
    materials := initialMaterials }

/-- The sun-cycle state as initialized in the source (`sunCycle` literal):
override off, day, target position `(19, 10, -6)`, intensity `8`, the warm
morning color, with the initial `window.lightSwitch` registry. -/
noncomputable def initialSunLightState : SunLightState :=
  { override := false
    isNight := false
    targetPosition := ⟨19, 10, -6⟩
    targetIntensity := 8
    targetColor := ⟨255 / 255, 183 / 255, 112 / 255⟩
    lightSwitch := initialLightSwitch }

/-- The camera mode stored in `cameraConfig.mode`. -/
inductive CameraMode where
  | mouse
  | orbit
deriving DecidableEq

/-- The camera-controller state: `cameraConfig.mode`, the camera pose,
mouse-follow smoothing state, the `cameraFocus` record, and the two fields of
the external OrbitControls collaborator the controller reads or writes. -/
structure CameraState where
  mode : CameraMode
  pos : V3
  lookCurrent : V3
  mouseTargetX : ℝ
  mouseTargetY : ℝ
  mouseCurrentX : ℝ
  mouseCurrentY : ℝ
  cameraLookCenter : V3
  controlsEnabled : Bool
  controlsTarget : V3
  focusActive : Bool
  focusTransitioning : Bool
  meshName : Option String
  targetPosition : V3
  targetLookAt : V3
  returnPosition : V3
  returnLookAt : V3
  lerpBase : ℝ
  previousMode : Option CameraMode

/-- Source constant `cameraLookRange = { x: 2, y: 1 }`. -/
noncomputable def cameraLookRange : ℝ × ℝ := (2, 1)

/-- Source function `enterFocusMode`: save the current pose as the return
pose, install the focus target pose and blend rate (the output of
`computeFocusCamera`, passed here as `fpos`/`flook`), remember the previous
camera mode, disable OrbitControls when it was active, and start
transitioning. -/
noncomputable def enterFocusMode (name : String) (fpos flook : V3) (lb : ℝ)
    (s : CameraState) : CameraState :=
  let s := { s with
    returnPosition := s.pos
    returnLookAt := s.lookCurrent
    targetPosition := fpos
    targetLookAt := flook
    lerpBase := lb
    meshName := some name
    previousMode := some s.mode }
  let s := if s.mode = CameraMode.orbit then { s with controlsEnabled := false } else s
  { s with focusActive := true, focusTransitioning := true }

/-- Source function `exitFocusMode`: when focus is active or transitioning,
re-aim both blend targets at the saved return pose and start the outward
transition. -/
noncomputable def exitFocusMode (s : CameraState) : CameraState :=
  if !s.focusActive && !s.focusTransitioning then s
  else { s with
    targetPosition := s.returnPosition
    targetLookAt := s.returnLookAt
    focusActive := false
    focusTransitioning := true }

/-- Source function `finishFocusReturn`: stop transitioning, clear the mesh
name, and when the previous mode was orbit restore it — re-enable
OrbitControls and sync its target to the saved return look-at. -/
noncomputable def finishFocusReturn (s : CameraState) : CameraState :=
  let s := { s with focusTransitioning := false, meshName := none }
  if s.previousMode = some CameraMode.orbit then
    { s with
      mode := CameraMode.orbit
      controlsTarget := s.returnLookAt
      controlsEnabled := true
      previousMode := none }
  else { s with previousMode := none }

/-- The `C`-key handler: blocked while focus is active or transitioning;
otherwise toggle mouse/orbit, set the controls' enabled flag accordingly, and
when switching to orbit with a non-degenerate look center seed the controls'
target from it. -/
noncomputable def pressC (s : CameraState) : CameraState :=
  if s.focusActive || s.focusTransitioning then s
  else
    let newMode := if s.mode = CameraMode.mouse then CameraMode.orbit else CameraMode.mouse
    let s := { s with mode := newMode, controlsEnabled := newMode = CameraMode.orbit }
    if s.mode = CameraMode.orbit ∧ 0 < s.cameraLookCenter.length then
      { s with controlsTarget := s.cameraLookCenter }
    else s

/-- The camera section of the animate loop for one frame of duration
`delta`.  Focus branch: blend position and look-at toward the active leg's
targets with factor `1 - lerpBase ^ delta`; when both post-blend distances
fall below `0.01`, snap to the targets exactly, then either settle (inward
leg) or run `finishFocusReturn` (outward leg).  Mouse branch: smooth the
pointer and aim the look-at inside `cameraLookRange` around the look center.
Orbit branch: delegated to the external OrbitControls collaborator
(`controls.update()`), which owns the camera pose there. -/
noncomputable def frameStep (delta : ℝ) (s : CameraState) : CameraState :=
  if s.focusActive || s.focusTransitioning then
    let focusLerp := 1 - s.lerpBase ^ delta
    let pos := V3.lerp s.pos s.targetPosition focusLerp
    let look := V3.lerp s.lookCurrent s.targetLookAt focusLerp
    if V3.dist pos s.targetPosition < 0.01 ∧ V3.dist look s.targetLookAt < 0.01 then
      let s := { s with pos := s.targetPosition, lookCurrent := s.targetLookAt }
      if s.focusActive then { s with focusTransitioning := false }
      else finishFocusReturn s
    else { s with pos := pos, lookCurrent := look }
  else if s.mode = CameraMode.mouse then
    let lerpSpeed := 1 - (0.001 : ℝ) ^ delta
    let mx := s.mouseCurrentX + (s.mouseTargetX - s.mouseCurrentX) * lerpSpeed
    let my := s.mouseCurrentY + (s.mouseTargetY - s.mouseCurrentY) * lerpSpeed
    let s := { s with mouseCurrentX := mx, mouseCurrentY := my }
    if 0 < s.cameraLookCenter.length then
      let targetLookX := s.cameraLookCenter.x + mx * cameraLookRange.1
      let targetLookY := s.cameraLookCenter.y + my * cameraLookRange.2
      { s with lookCurrent :=
        ⟨s.lookCurrent.x + (targetLookX - s.lookCurrent.x) * lerpSpeed,
         s.lookCurrent.y + (targetLookY - s.lookCurrent.y) * lerpSpeed,
         s.lookCurrent.z⟩ }
    else s
  else s

/-- A concrete camera state in focus mode, used by witnesses: already at the
target pose, with the `BOOTH_DJ` focus leg active. -/
noncomputable def focusWitnessState : CameraState :=
  { mode := CameraMode.mouse
    pos := ⟨10, 4.5, 16⟩
    lookCurrent := ⟨19, 4.5, 0⟩
    mouseTargetX := 0
    mouseTargetY := 0
    mouseCurrentX := 0
    mouseCurrentY := 0
    cameraLookCenter := ⟨5, 2, 3⟩
    controlsEnabled := false
    controlsTarget := ⟨0, 0, 0⟩
    focusActive := true
    focusTransitioning := true
    meshName := some "BOOTH_DJ"
    targetPosition := ⟨10, 4.5, 16⟩
    targetLookAt := ⟨19, 4.5, 0⟩
    returnPosition := ⟨0, 0, 5⟩
    returnLookAt := ⟨5, 2, 3⟩
    lerpBase := 0.008
    previousMode := some CameraMode.orbit }

/-- A concrete orbit-mode camera state used by witnesses. -/
noncomputable def orbitStartState : CameraState :=
  { mode := CameraMode.orbit
    pos := ⟨0, 0, 5⟩
    lookCurrent := ⟨5, 2, 3⟩
    mouseTargetX := 0
    mouseTargetY := 0
    mouseCurrentX := 0
    mouseCurrentY := 0
    cameraLookCenter := ⟨5, 2, 3⟩
    controlsEnabled := true
    controlsTarget := ⟨5, 2, 3⟩
    focusActive := false
    focusTransitioning := false
    meshName := none
    targetPosition := ⟨0, 0, 0⟩
    targetLookAt := ⟨0, 0, 0⟩
    returnPosition := ⟨0, 0, 0⟩
    returnLookAt := ⟨0, 0, 0⟩
    lerpBase := 0.003
    previousMode := none }

theorem smoothstep_nonneg (t : ℝ) : 0 ≤ smoothstep t := by
  simp only [smoothstep]
  have h0 : (0 : ℝ) ≤ max 0 (min 1 t) := le_max_left _ _
  have h1 : max 0 (min 1 t) ≤ 1 := max_le zero_le_one (min_le_left _ _)
  nlinarith

theorem smoothstep_le_one (t : ℝ) : smoothstep t ≤ 1 := by
  simp only [smoothstep]
  have h0 : (0 : ℝ) ≤ max 0 (min 1 t) := le_max_left _ _
  have h1 : max 0 (min 1 t) ≤ 1 := max_le zero_le_one (min_le_left _ _)
  nlinarith [sq_nonneg (1 - max 0 (min 1 t))]

/-- C1: for every hour in `[sunrise, sunset]` the sun sample's intensity lies
between `0` and the peak `6`; for every hour outside that range it is
exactly `0`. -/
theorem sun_intensity_bounds (h : ℝ) :
    (sunCycleConfig.sunrise ≤ h ∧ h ≤ sunCycleConfig.sunset →
      0 ≤ (getSunPosition h).intensity ∧ (getSunPosition h).intensity ≤ 6) ∧
    (¬(sunCycleConfig.sunrise ≤ h ∧ h ≤ sunCycleConfig.sunset) →
      (getSunPosition h).intensity = 0) := by
  constructor
  · intro hin
    simp only [getSunPosition, if_pos hin]
    split_ifs with h1 h2
    · exact ⟨by nlinarith [smoothstep_nonneg ((h - sunCycleConfig.sunrise) / 2)],
        by nlinarith [smoothstep_le_one ((h - sunCycleConfig.sunrise) / 2)]⟩
    · exact ⟨by nlinarith [smoothstep_nonneg ((sunCycleConfig.sunset - h) / 2)],
        by nlinarith [smoothstep_le_one ((sunCycleConfig.sunset - h) / 2)]⟩
    · norm_num
  · intro hout
    simp only [getSunPosition, if_neg hout]

theorem blendStep_gap (x target rate dt : ℝ) :
    target - blendStep x target rate dt = (target - x) * rate ^ dt := by
  simp only [blendStep]; ring

theorem blendIter_gap (c t rate dt : ℝ) (n : ℕ) :
    t - blendIter c t rate dt n = (t - c) * (rate ^ dt) ^ n := by
  induction n with
  | zero => simp [blendIter]
  | succ n ih =>
      rw [show blendIter c t rate dt (n + 1) = blendStep (blendIter c t rate dt n) t rate dt
        from rfl, blendStep_gap, ih]
      ring

/-- C2: the blend step is frame-rate independent — blending for `d1` then
`d2` seconds equals blending once for `d1 + d2` seconds. -/
theorem blendStep_additive (c t rate d1 d2 : ℝ) (hr0 : 0 < rate) (hr1 : rate < 1)
    (hd1 : 0 < d1) (hd2 : 0 < d2) :
    blendStep (blendStep c t rate d1) t rate d2 = blendStep c t rate (d1 + d2) := by
  simp only [blendStep, Real.rpow_add hr0]
  ring

/-- Witness for C2 at `c = 0`, `t = 1`, `rate = 1/2`, `d1 = d2 = 1`. -/
theorem blendStep_additive_witness :
    blendStep (blendStep 0 1 (1 / 2) 1) 1 (1 / 2) 1 = blendStep 0 1 (1 / 2) (1 + 1) :=
  blendStep_additive 0 1 (1 / 2) 1 1 (by norm_num) (by norm_num) (by norm_num) (by norm_num)

/-- C6: with a fixed positive time-step and a decay rate in `(0, 1)`, the
iterated blend step never overshoots (the sign of `target - current` never
flips), the gap to the target shrinks monotonically, and the value comes
within any `ε` of the target after finitely many iterations. -/
theorem blendIter_monotone_no_overshoot_converges (c t rate dt : ℝ)
    (hr0 : 0 < rate) (hr1 : rate < 1) (hdt : 0 < dt) :
    (∀ n, |t - blendIter c t rate dt (n + 1)| ≤ |t - blendIter c t rate dt n|) ∧
    (∀ n, 0 ≤ (t - c) * (t - blendIter c t rate dt n)) ∧
    (∀ ε, 0 < ε → ∃ N, ∀ n, N ≤ n → |t - blendIter c t rate dt n| < ε) := by
  have hq0 : 0 < rate ^ dt := Real.rpow_pos_of_pos hr0 dt
  have hq1 : rate ^ dt < 1 := Real.rpow_lt_one hr0.le hr1 hdt
  refine ⟨fun n => ?_, fun n => ?_, fun ε hε => ?_⟩
  · rw [blendIter_gap, blendIter_gap, abs_mul, abs_mul, abs_pow, abs_pow,
      abs_of_pos hq0, pow_succ]
    calc |t - c| * ((rate ^ dt) ^ n * rate ^ dt)
        ≤ |t - c| * ((rate ^ dt) ^ n * 1) :=
          mul_le_mul_of_nonneg_left
            (mul_le_mul_of_nonneg_left hq1.le (pow_nonneg hq0.le n)) (abs_nonneg _)
      _ = |t - c| * (rate ^ dt) ^ n := by ring
  · rw [blendIter_gap]
    have : (t - c) * ((t - c) * (rate ^ dt) ^ n) = (t - c) ^ 2 * (rate ^ dt) ^ n := by ring
    rw [this]
    exact mul_nonneg (sq_nonneg _) (pow_nonneg hq0.le n)
  · obtain ⟨N, hN⟩ := exists_pow_lt_of_lt_one
      (show 0 < ε / (|t - c| + 1) by positivity) hq1
    refine ⟨N, fun n hn => ?_⟩
    rw [blendIter_gap, abs_mul, abs_pow, abs_of_pos hq0]
    have hmono : (rate ^ dt) ^ n ≤ (rate ^ dt) ^ N :=
      pow_le_pow_of_le_one hq0.le hq1.le hn
    have h1 : |t - c| * (rate ^ dt) ^ n ≤ |t - c| * (rate ^ dt) ^ N :=
      mul_le_mul_of_nonneg_left hmono (abs_nonneg _)
    have h2 : |t - c| * (rate ^ dt) ^ N < |t - c| * (ε / (|t - c| + 1)) + ε / (|t - c| + 1) := by
      nlinarith [abs_nonneg (t - c), pow_nonneg hq0.le N,
        mul_le_mul_of_nonneg_left hN.le (abs_nonneg (t - c))]
    have h3 : |t - c| * (ε / (|t - c| + 1)) + ε / (|t - c| + 1) = ε := by
      field_simp
      ring
    linarith

/-- Witness for C6 at `c = 0`, `t = 1`, `rate = 1/2`, `dt = 1`. -/
theorem blendIter_monotone_no_overshoot_converges_witness :
    (∀ n, |1 - blendIter 0 1 (1 / 2) 1 (n + 1)| ≤ |1 - blendIter 0 1 (1 / 2) 1 n|) ∧
    (∀ n, 0 ≤ (1 - (0 : ℝ)) * (1 - blendIter 0 1 (1 / 2) 1 n)) ∧
    (∀ ε, 0 < ε → ∃ N, ∀ n, N ≤ n → |1 - blendIter 0 1 (1 / 2) 1 n| < ε) :=
  blendIter_monotone_no_overshoot_converges 0 1 (1 / 2) 1
    (by norm_num) (by norm_num) (by norm_num)

/-- C9 counterexample: advancing the simulated clock from the valid hour `23`
by a frame of `delta = 100` seconds at the configured speed `24` yields `39`,
which is not in `[0, 24)` — the single conditional `-= 24` wrap is not a true
modulo. -/
theorem advanceSimHour_not_always_wrapped :
    ((0 : ℝ) ≤ 23 ∧ (23 : ℝ) < 24) ∧
    advanceSimHour 23 100 24 = 39 ∧ ¬ advanceSimHour 23 100 24 < 24 := by
  have h : advanceSimHour 23 100 24 = 39 := by
    simp only [advanceSimHour]
    norm_num
  exact ⟨by norm_num, h, by rw [h]; norm_num⟩

/-- C9 (amended): starting from a simulated hour in `[0, 24)`, with a
nonnegative frame delta and speed whose per-frame increment
`delta * simSpeed / 60` is below `24`, the advanced simulated hour lies in
`[0, 24)`. -/
theorem advanceSimHour_wraps (simHour delta simSpeed : ℝ)
    (h0 : 0 ≤ simHour) (h1 : simHour < 24) (hd : 0 ≤ delta) (hs : 0 ≤ simSpeed)
    (hinc : delta * simSpeed / 60 < 24) :
    0 ≤ advanceSimHour simHour delta simSpeed ∧ advanceSimHour simHour delta simSpeed < 24 := by
  have hincnn : 0 ≤ delta * simSpeed / 60 := by positivity
  simp only [advanceSimHour]
  split_ifs with hw hn hn <;> constructor <;> linarith

/-- Witness for the amended C9 at `simHour = 12`, `delta = 1`, `simSpeed = 24`. -/
theorem advanceSimHour_wraps_witness :
    0 ≤ advanceSimHour 12 1 24 ∧ advanceSimHour 12 1 24 < 24 :=
  advanceSimHour_wraps 12 1 24 (by norm_num) (by norm_num) (by norm_num) (by norm_num)
    (by norm_num)

/-- Witness for C1 at the in-range hour `12` and the out-of-range hour `3`. -/
theorem sun_intensity_bounds_witness :
    (0 ≤ (getSunPosition 12).intensity ∧ (getSunPosition 12).intensity ≤ 6) ∧
    (getSunPosition 3).intensity = 0 :=
  ⟨(sun_intensity_bounds 12).1 (by norm_num [sunCycleConfig]),
   (sun_intensity_bounds 3).2 (by norm_num [sunCycleConfig])⟩

theorem sunCycleTick_flip (st : SunLightState) (hour : ℝ)
    (hov : st.override = false)
    (hflip : isNightOf (getSunPosition hour).intensity ≠ st.isNight) :
    (sunCycleTick hour st).lightSwitch =
      autoToggleTargets (!(isNightOf (getSunPosition hour).intensity)) st.lightSwitch := by
  have hc : (!st.override && (st.isNight != isNightOf (getSunPosition hour).intensity)) = true := by
    simp [hov, bne_iff_ne]
    exact Ne.symm hflip
  simp only [sunCycleTick]
  simp [hc]

theorem sunCycleTick_no_flip (st : SunLightState) (hour : ℝ)
    (hsame : isNightOf (getSunPosition hour).intensity = st.isNight) :
    (sunCycleTick hour st).lightSwitch = st.lightSwitch := by
  have hc : (!st.override && (st.isNight != isNightOf (getSunPosition hour).intensity)) = false := by
    simp [bne_iff_ne, hsame]
  simp only [sunCycleTick]
  simp [hc]

/-- C5: when the day/night state flips and the override is not active, the
tick's automatic switch sets every non-sun room-light target to its
`onIntensity` (day) or to the `0.02` floor (night) — never to literal zero —
sets practical-light targets oppositely (`0` by day, `onIntensity` by night),
and sets material-intensity targets to their on/off values. -/
theorem auto_toggle_flip_targets (st : SunLightState) (hour : ℝ)
    (hov : st.override = false)
    (hflip : isNightOf (getSunPosition hour).intensity ≠ st.isNight)
    (hroom : ∀ l ∈ st.lightSwitch.roomLights, l.isSun = false → l.onIntensity ≠ 0) :
    (∀ l ∈ (sunCycleTick hour st).lightSwitch.roomLights, l.isSun = false →
      l.target = (if isNightOf (getSunPosition hour).intensity then (0.02 : ℝ)
        else l.onIntensity) ∧ l.target ≠ 0) ∧
    (∀ l ∈ (sunCycleTick hour st).lightSwitch.practicalLights,
      l.target = (if isNightOf (getSunPosition hour).intensity then l.onIntensity else 0)) ∧
    (∀ m ∈ (sunCycleTick hour st).lightSwitch.materials,
      m.target = (if isNightOf (getSunPosition hour).intensity then m.offIntensity
        else m.onIntensity)) := by
  rw [sunCycleTick_flip st hour hov hflip]
  set night := isNightOf (getSunPosition hour).intensity with hnight
  refine ⟨fun l hl hsun => ?_, fun l hl => ?_, fun m hm => ?_⟩
  · simp only [autoToggleTargets, List.mem_map] at hl
    obtain ⟨l0, hl0, rfl⟩ := hl
    by_cases h0 : l0.isSun
    · simp [h0] at hsun ⊢
    · have h0f : l0.isSun = false := by simpa using h0
      have hne := hroom l0 hl0 h0f
      simp only [h0, if_false, Bool.false_eq_true]
      cases night with
      | true => simp; norm_num
      | false => simp; exact hne
  · simp only [autoToggleTargets, List.mem_map] at hl
    obtain ⟨l0, hl0, rfl⟩ := hl
    cases night with
    | true => simp
    | false => simp
  · simp only [autoToggleTargets, List.mem_map] at hm
    obtain ⟨m0, hm0, rfl⟩ := hm
    cases night with
    | true => simp
    | false => simp

theorem getSunPosition_zero_intensity : (getSunPosition 0).intensity = 0 := by
  simp only [getSunPosition]
  rw [if_neg (by norm_num [sunCycleConfig])]

theorem isNightOf_zero : isNightOf (getSunPosition 0).intensity = true := by
  rw [getSunPosition_zero_intensity]
  simp only [isNightOf]
  norm_num

/-- Witness for C5: the initial registry, override inactive, ticked at hour
`0` (night, flipping the initial day state). -/
theorem auto_toggle_flip_targets_witness :
    (∀ l ∈ (sunCycleTick 0 initialSunLightState).lightSwitch.roomLights, l.isSun = false →
      l.target = (if isNightOf (getSunPosition 0).intensity then (0.02 : ℝ)
        else l.onIntensity) ∧ l.target ≠ 0) ∧
    (∀ l ∈ (sunCycleTick 0 initialSunLightState).lightSwitch.practicalLights,
      l.target = (if isNightOf (getSunPosition 0).intensity then l.onIntensity else 0)) ∧
    (∀ m ∈ (sunCycleTick 0 initialSunLightState).lightSwitch.materials,
      m.target = (if isNightOf (getSunPosition 0).intensity then m.offIntensity
        else m.onIntensity)) := by
  refine auto_toggle_flip_targets initialSunLightState 0 rfl ?_ ?_
  · rw [isNightOf_zero]
    simp [initialSunLightState]
  · intro l hl hsun
    simp only [initialSunLightState, initialLightSwitch, initialRoomLights,
      List.mem_cons, List.not_mem_nil, or_false] at hl
    rcases hl with h | h | h | h | h | h <;> subst h <;> simp_all <;> norm_num

/-- C3: pressing the manual light toggle twice from an override-inactive
state returns the override flag to false; the second press itself changes no
light or material target; and the next sun-cycle tick on which the day/night
state flips drives the targets by the automatic day/night logic again. -/
theorem double_toggle_releases_override (st : SunLightState) (hour : ℝ)
    (hov : st.override = false)
    (hflip : isNightOf (getSunPosition hour).intensity ≠ st.isNight) :
    (pressL (pressL st)).override = false ∧
    (pressL (pressL st)).lightSwitch = (pressL st).lightSwitch ∧
    (sunCycleTick hour (pressL (pressL st))).lightSwitch =
      autoToggleTargets (!(isNightOf (getSunPosition hour).intensity))
        ((pressL (pressL st)).lightSwitch) := by
  have h1 : pressL st = { st with override := true, lightSwitch := manualToggle st.lightSwitch } := by
    simp [pressL, hov]
  have h2 : pressL (pressL st) =
      { st with override := false, lightSwitch := manualToggle st.lightSwitch } := by
    rw [h1]; simp [pressL]
  refine ⟨by simp [h2], by rw [h2, h1], ?_⟩
  exact sunCycleTick_flip _ hour (by simp [h2]) (by simpa [h2] using hflip)

/-- Witness for C3: the initial state, toggled twice, then ticked at hour `0`. -/
theorem double_toggle_releases_override_witness :
    (pressL (pressL initialSunLightState)).override = false ∧
    (pressL (pressL initialSunLightState)).lightSwitch = (pressL initialSunLightState).lightSwitch ∧
    (sunCycleTick 0 (pressL (pressL initialSunLightState))).lightSwitch =
      autoToggleTargets (!(isNightOf (getSunPosition 0).intensity))
        ((pressL (pressL initialSunLightState)).lightSwitch) :=
  double_toggle_releases_override initialSunLightState 0 rfl
    (by rw [isNightOf_zero]; simp [initialSunLightState])

/-- C8: while focus is active or transitioning, the `C`-key camera-mode
toggle changes neither the camera mode nor the orbit controls' enabled flag. -/
theorem pressC_blocked_during_focus (s : CameraState)
    (hfocus : s.focusActive = true ∨ s.focusTransitioning = true) :
    (pressC s).mode = s.mode ∧ (pressC s).controlsEnabled = s.controlsEnabled := by
  have hc : (s.focusActive || s.focusTransitioning) = true := by
    rcases hfocus with h | h <;> simp [h]
  simp only [pressC, hc]
  simp

/-- Witness for C8 at a concrete in-focus state. -/
theorem pressC_blocked_during_focus_witness :
    (pressC focusWitnessState).mode = focusWitnessState.mode ∧
    (pressC focusWitnessState).controlsEnabled = focusWitnessState.controlsEnabled :=
  pressC_blocked_during_focus focusWitnessState (Or.inl rfl)

theorem V3.dist_lerp (a b : V3) (f : ℝ) (hf : f ≤ 1) :
    V3.dist (V3.lerp a b f) b = (1 - f) * V3.dist a b := by
  simp only [V3.dist, V3.lerp]
  have h : (b.x - (a.x + (b.x - a.x) * f)) ^ 2 + (b.y - (a.y + (b.y - a.y) * f)) ^ 2 +
      (b.z - (a.z + (b.z - a.z) * f)) ^ 2 =
      (1 - f) ^ 2 * ((b.x - a.x) ^ 2 + (b.y - a.y) ^ 2 + (b.z - a.z) ^ 2) := by
    ring
  rw [h, Real.sqrt_mul (sq_nonneg _), Real.sqrt_sq (by linarith)]

theorem V3.dist_self (a : V3) : V3.dist a a = 0 := by
  simp [V3.dist]

theorem V3.dist_nonneg (a b : V3) : 0 ≤ V3.dist a b := Real.sqrt_nonneg _

/-- C10: on the frame where both post-blend distances to the active leg's
targets fall below `0.01`, the camera position and current look-at are set
exactly equal to the target position and target look-at in the resulting
state, whichever way the transition then resolves (settling or finishing the
return). -/
theorem arrival_snaps_exactly (delta : ℝ) (s : CameraState)
    (hfocus : s.focusActive = true ∨ s.focusTransitioning = true)
    (harr : V3.dist (V3.lerp s.pos s.targetPosition (1 - s.lerpBase ^ delta))
        s.targetPosition < 0.01 ∧
      V3.dist (V3.lerp s.lookCurrent s.targetLookAt (1 - s.lerpBase ^ delta))
        s.targetLookAt < 0.01) :
    (frameStep delta s).pos = s.targetPosition ∧
    (frameStep delta s).lookCurrent = s.targetLookAt := by
  have hc : (s.focusActive || s.focusTransitioning) = true := by
    rcases hfocus with h | h <;> simp [h]
  simp only [frameStep, hc, if_true, harr, and_self, if_pos]
  by_cases ha : s.focusActive
  · simp [ha, finishFocusReturn]
  · simp only [ha, if_false, Bool.false_eq_true, finishFocusReturn]
    split_ifs <;> simp

/-- Witness for C10: `focusWitnessState` is already at its focus pose, so the
post-blend distances are `0` and the frame snaps it exactly. -/
theorem arrival_snaps_exactly_witness :
    (frameStep 1 focusWitnessState).pos = focusWitnessState.targetPosition ∧
    (frameStep 1 focusWitnessState).lookCurrent = focusWitnessState.targetLookAt := by
  have hf : (1 : ℝ) - focusWitnessState.lerpBase ^ (1 : ℝ) ≤ 1 := by
    have h1 : (0 : ℝ) < focusWitnessState.lerpBase ^ (1 : ℝ) :=
      Real.rpow_pos_of_pos (by norm_num [focusWitnessState]) 1
    linarith
  refine arrival_snaps_exactly 1 focusWitnessState (Or.inl rfl) ⟨?_, ?_⟩
  · rw [V3.dist_lerp _ _ _ hf]
    have h0 : V3.dist focusWitnessState.pos focusWitnessState.targetPosition = 0 :=
      V3.dist_self ⟨10, 4.5, 16⟩
    rw [h0]
    norm_num
  · rw [V3.dist_lerp _ _ _ hf]
    have h0 : V3.dist focusWitnessState.lookCurrent focusWitnessState.targetLookAt = 0 :=
      V3.dist_self ⟨19, 4.5, 0⟩
    rw [h0]
    norm_num

theorem frameStep_active_inv (delta : ℝ) (s : CameraState) (h : s.focusActive = true) :
    (frameStep delta s).focusActive = true ∧
    (frameStep delta s).returnPosition = s.returnPosition ∧
    (frameStep delta s).returnLookAt = s.returnLookAt ∧
    (frameStep delta s).previousMode = s.previousMode ∧
    (frameStep delta s).lerpBase = s.lerpBase := by
  have hc : (s.focusActive || s.focusTransitioning) = true := by simp [h]
  simp only [frameStep, hc, if_true]
  split_ifs with harr <;> simp [h]

theorem iterate_active_inv (delta : ℝ) (k : ℕ) (s : CameraState) (h : s.focusActive = true) :
    ((frameStep delta)^[k] s).focusActive = true ∧
    ((frameStep delta)^[k] s).returnPosition = s.returnPosition ∧
    ((frameStep delta)^[k] s).returnLookAt = s.returnLookAt ∧
    ((frameStep delta)^[k] s).previousMode = s.previousMode ∧
    ((frameStep delta)^[k] s).lerpBase = s.lerpBase := by
  induction k generalizing s with
  | zero => simp [h]
  | succ k ih =>
      rw [Function.iterate_succ_apply]
      obtain ⟨h1, h2, h3, h4, h5⟩ := frameStep_active_inv delta s h
      obtain ⟨g1, g2, g3, g4, g5⟩ := ih (frameStep delta s) h1
      exact ⟨g1, g2.trans h2, g3.trans h3, g4.trans h4, g5.trans h5⟩

theorem focusReturn_terminates (delta : ℝ) :
    ∀ n : ℕ, ∀ s : CameraState, s.focusActive = false → s.focusTransitioning = true →
    (s.lerpBase ^ delta) ^ (n + 1) * V3.dist s.pos s.targetPosition < 0.01 →
    (s.lerpBase ^ delta) ^ (n + 1) * V3.dist s.lookCurrent s.targetLookAt < 0.01 →
    0 < s.lerpBase ^ delta → s.lerpBase ^ delta ≤ 1 →
    ∃ m : ℕ, (frameStep delta)^[m] s =
      finishFocusReturn { s with pos := s.targetPosition, lookCurrent := s.targetLookAt } := by
  intro n
  induction n with
  | zero =>
      intro s hA hT hp hl hq0 hq1
      have hf1 : 1 - s.lerpBase ^ delta ≤ 1 := by linarith
      have hc : (s.focusActive || s.focusTransitioning) = true := by simp [hT]
      have hdp : V3.dist (V3.lerp s.pos s.targetPosition (1 - s.lerpBase ^ delta))
          s.targetPosition < 0.01 := by
        rw [V3.dist_lerp _ _ _ hf1]
        calc (1 - (1 - s.lerpBase ^ delta)) * V3.dist s.pos s.targetPosition
            = (s.lerpBase ^ delta) ^ (0 + 1) * V3.dist s.pos s.targetPosition := by ring
          _ < 0.01 := hp
      have hdl : V3.dist (V3.lerp s.lookCurrent s.targetLookAt (1 - s.lerpBase ^ delta))
          s.targetLookAt < 0.01 := by
        rw [V3.dist_lerp _ _ _ hf1]
        calc (1 - (1 - s.lerpBase ^ delta)) * V3.dist s.lookCurrent s.targetLookAt
            = (s.lerpBase ^ delta) ^ (0 + 1) * V3.dist s.lookCurrent s.targetLookAt := by ring
          _ < 0.01 := hl
      refine ⟨1, ?_⟩
      rw [Function.iterate_one]
      simp only [frameStep, hc, if_true]
      rw [if_pos ⟨hdp, hdl⟩]
      simp [hA]
  | succ n ih =>
      intro s hA hT hp hl hq0 hq1
      have hf1 : 1 - s.lerpBase ^ delta ≤ 1 := by linarith
      have hc : (s.focusActive || s.focusTransitioning) = true := by simp [hT]
      by_cases harr :
          V3.dist (V3.lerp s.pos s.targetPosition (1 - s.lerpBase ^ delta))
            s.targetPosition < 0.01 ∧
          V3.dist (V3.lerp s.lookCurrent s.targetLookAt (1 - s.lerpBase ^ delta))
            s.targetLookAt < 0.01
      · refine ⟨1, ?_⟩
        rw [Function.iterate_one]
        simp only [frameStep, hc, if_true]
        rw [if_pos harr]
        simp [hA]
      · have hstep : frameStep delta s =
            { s with
              pos := V3.lerp s.pos s.targetPosition (1 - s.lerpBase ^ delta)
              lookCurrent := V3.lerp s.lookCurrent s.targetLookAt (1 - s.lerpBase ^ delta) } := by
          simp only [frameStep, hc, if_true]
          rw [if_neg harr]
        have hp2 : (s.lerpBase ^ delta) ^ (n + 1) *
            V3.dist (V3.lerp s.pos s.targetPosition (1 - s.lerpBase ^ delta))
              s.targetPosition < 0.01 := by
          rw [V3.dist_lerp _ _ _ hf1]
          calc (s.lerpBase ^ delta) ^ (n + 1) *
              ((1 - (1 - s.lerpBase ^ delta)) * V3.dist s.pos s.targetPosition)
              = (s.lerpBase ^ delta) ^ (n + 1 + 1) * V3.dist s.pos s.targetPosition := by
                rw [pow_succ]; ring
            _ < 0.01 := hp
        have hl2 : (s.lerpBase ^ delta) ^ (n + 1) *
            V3.dist (V3.lerp s.lookCurrent s.targetLookAt (1 - s.lerpBase ^ delta))
              s.targetLookAt < 0.01 := by
          rw [V3.dist_lerp _ _ _ hf1]
          calc (s.lerpBase ^ delta) ^ (n + 1) *
              ((1 - (1 - s.lerpBase ^ delta)) * V3.dist s.lookCurrent s.targetLookAt)
              = (s.lerpBase ^ delta) ^ (n + 1 + 1) * V3.dist s.lookCurrent s.targetLookAt := by
                rw [pow_succ]; ring
            _ < 0.01 := hl
        obtain ⟨m, hm⟩ := ih (frameStep delta s)
          (by rw [hstep]; exact hA) (by rw [hstep]; exact hT) (by rw [hstep]; exact hp2)
          (by rw [hstep]; exact hl2) (by rw [hstep]; exact hq0) (by rw [hstep]; exact hq1)
        refine ⟨m + 1, ?_⟩
        rw [Function.iterate_succ_apply, hm, hstep]

theorem geom_step_bound (q dp dl : ℝ) (M : ℕ) (hq0 : 0 < q) (hq1 : q ≤ 1)
    (hdp : 0 ≤ dp) (hdl : 0 ≤ dl) (hM : q ^ M < 0.01 / (dp + dl + 1)) :
    q ^ (M + 1) * dp < 0.01 := by
  have hsum : (0 : ℝ) < dp + dl + 1 := by linarith
  have hc0 : (0 : ℝ) < 0.01 / (dp + dl + 1) := by positivity
  have hceq : 0.01 / (dp + dl + 1) * (dp + dl + 1) = 0.01 :=
    div_mul_cancel₀ _ (by linarith)
  have h1 : q ^ (M + 1) ≤ q ^ M := by
    rw [pow_succ]
    nlinarith [pow_nonneg hq0.le M]
  have h2 : q ^ (M + 1) * dp ≤ q ^ M * dp := mul_le_mul_of_nonneg_right h1 hdp
  have h3 : q ^ M * dp ≤ 0.01 / (dp + dl + 1) * dp :=
    mul_le_mul_of_nonneg_right hM.le hdp
  have hsplit : 0.01 / (dp + dl + 1) * (dp + dl + 1) =
      0.01 / (dp + dl + 1) * dp + 0.01 / (dp + dl + 1) * (dl + 1) := by ring
  have h4 : 0 < 0.01 / (dp + dl + 1) * (dl + 1) := by positivity
  linarith

theorem exitFocus_terminates (delta : ℝ) (mid : CameraState)
    (hA : mid.focusActive = true)
    (hq0 : 0 < mid.lerpBase ^ delta) (hq1 : mid.lerpBase ^ delta < 1)
    (hpm : mid.previousMode = some CameraMode.orbit) :
    ∃ N : ℕ,
      ((frameStep delta)^[N] (exitFocusMode mid)).pos = mid.returnPosition ∧
      ((frameStep delta)^[N] (exitFocusMode mid)).lookCurrent = mid.returnLookAt ∧
      ((frameStep delta)^[N] (exitFocusMode mid)).mode = CameraMode.orbit ∧
      ((frameStep delta)^[N] (exitFocusMode mid)).controlsEnabled = true ∧
      ((frameStep delta)^[N] (exitFocusMode mid)).controlsTarget = mid.returnLookAt ∧
      ((frameStep delta)^[N] (exitFocusMode mid)).focusActive = false ∧
      ((frameStep delta)^[N] (exitFocusMode mid)).focusTransitioning = false := by
  have hexit : exitFocusMode mid =
      { mid with
        targetPosition := mid.returnPosition
        targetLookAt := mid.returnLookAt
        focusActive := false
        focusTransitioning := true } := by
    simp only [exitFocusMode]
    rw [if_neg (by simp [hA])]
  rw [hexit]
  set s2 : CameraState :=
    { mid with
      targetPosition := mid.returnPosition
      targetLookAt := mid.returnLookAt
      focusActive := false
      focusTransitioning := true } with hs2
  obtain ⟨M, hM⟩ := exists_pow_lt_of_lt_one
    (show (0 : ℝ) < 0.01 / (V3.dist s2.pos s2.targetPosition +
        V3.dist s2.lookCurrent s2.targetLookAt + 1) from
      div_pos (by norm_num)
        (by linarith [V3.dist_nonneg s2.pos s2.targetPosition,
          V3.dist_nonneg s2.lookCurrent s2.targetLookAt])) hq1
  have hbp : (s2.lerpBase ^ delta) ^ (M + 1) * V3.dist s2.pos s2.targetPosition < 0.01 :=
    geom_step_bound _ _ _ M hq0 hq1.le (V3.dist_nonneg _ _) (V3.dist_nonneg _ _) hM
  have hbl : (s2.lerpBase ^ delta) ^ (M + 1) * V3.dist s2.lookCurrent s2.targetLookAt < 0.01 := by
    refine geom_step_bound (s2.lerpBase ^ delta) (V3.dist s2.lookCurrent s2.targetLookAt)
      (V3.dist s2.pos s2.targetPosition) M hq0 hq1.le
      (V3.dist_nonneg _ _) (V3.dist_nonneg _ _) ?_
    calc (s2.lerpBase ^ delta) ^ M
        < 0.01 / (V3.dist s2.pos s2.targetPosition +
            V3.dist s2.lookCurrent s2.targetLookAt + 1) := hM
      _ ≤ 0.01 / (V3.dist s2.lookCurrent s2.targetLookAt +
            V3.dist s2.pos s2.targetPosition + 1) := by
          rw [show V3.dist s2.lookCurrent s2.targetLookAt +
              V3.dist s2.pos s2.targetPosition + 1 =
              V3.dist s2.pos s2.targetPosition +
              V3.dist s2.lookCurrent s2.targetLookAt + 1 by ring]
  obtain ⟨m, hm⟩ := focusReturn_terminates delta M s2 rfl rfl hbp hbl hq0 hq1.le
  have hfin : finishFocusReturn
      { s2 with pos := s2.targetPosition, lookCurrent := s2.targetLookAt } =
      { s2 with
        pos := s2.targetPosition
        lookCurrent := s2.targetLookAt
        focusTransitioning := false
        meshName := none
        mode := CameraMode.orbit
        controlsTarget := s2.returnLookAt
        controlsEnabled := true
        previousMode := none } := by
    simp only [finishFocusReturn]
    split_ifs
    rfl
  refine ⟨m, ?_⟩
  rw [hm, hfin]
  exact ⟨rfl, rfl, rfl, rfl, rfl, rfl, rfl⟩

/-- C4: entering focus mode from Orbit and later exiting it brings the camera
position and look-at point back within `0.01` of their pre-focus values (the
arrival snap makes them exactly equal), and restores the orbit controls to
enabled with their look target synced to the saved return look-at. -/
theorem focus_roundtrip (s0 : CameraState) (name : String) (fpos flook : V3)
    (lb delta : ℝ) (k : ℕ)
    (hmode : s0.mode = CameraMode.orbit)
    (hlb0 : 0 < lb) (hlb1 : lb < 1) (hd : 0 < delta) :
    ∃ N : ℕ,
      V3.dist ((frameStep delta)^[N] (exitFocusMode ((frameStep delta)^[k]
          (enterFocusMode name fpos flook lb s0)))).pos s0.pos < 0.01 ∧
      V3.dist ((frameStep delta)^[N] (exitFocusMode ((frameStep delta)^[k]
          (enterFocusMode name fpos flook lb s0)))).lookCurrent s0.lookCurrent < 0.01 ∧
      ((frameStep delta)^[N] (exitFocusMode ((frameStep delta)^[k]
          (enterFocusMode name fpos flook lb s0)))).mode = CameraMode.orbit ∧
      ((frameStep delta)^[N] (exitFocusMode ((frameStep delta)^[k]
          (enterFocusMode name fpos flook lb s0)))).controlsEnabled = true ∧
      ((frameStep delta)^[N] (exitFocusMode ((frameStep delta)^[k]
          (enterFocusMode name fpos flook lb s0)))).controlsTarget = s0.lookCurrent ∧
      ((frameStep delta)^[N] (exitFocusMode ((frameStep delta)^[k]
          (enterFocusMode name fpos flook lb s0)))).focusActive = false ∧
      ((frameStep delta)^[N] (exitFocusMode ((frameStep delta)^[k]
          (enterFocusMode name fpos flook lb s0)))).focusTransitioning = false := by
  have hs1 : enterFocusMode name fpos flook lb s0 =
      { s0 with
        returnPosition := s0.pos
        returnLookAt := s0.lookCurrent
        targetPosition := fpos
        targetLookAt := flook
        lerpBase := lb
        meshName := some name
        previousMode := some s0.mode
        controlsEnabled := false
        focusActive := true
        focusTransitioning := true } := by
    simp only [enterFocusMode]
    split_ifs
    rfl
  obtain ⟨hA, hrp, hrl, hpm, hlb⟩ :=
    iterate_active_inv delta k (enterFocusMode name fpos flook lb s0) (by rw [hs1])
  have hrp0 : ((frameStep delta)^[k] (enterFocusMode name fpos flook lb s0)).returnPosition =
      s0.pos := by rw [hrp, hs1]
  have hrl0 : ((frameStep delta)^[k] (enterFocusMode name fpos flook lb s0)).returnLookAt =
      s0.lookCurrent := by rw [hrl, hs1]
  have hpm0 : ((frameStep delta)^[k] (enterFocusMode name fpos flook lb s0)).previousMode =
      some CameraMode.orbit := by
    rw [hpm, hs1]
    simp [hmode]
  have hlbk : ((frameStep delta)^[k] (enterFocusMode name fpos flook lb s0)).lerpBase = lb := by
    rw [hlb, hs1]
  have hq0 : 0 < ((frameStep delta)^[k]
      (enterFocusMode name fpos flook lb s0)).lerpBase ^ delta := by
    rw [hlbk]
    exact Real.rpow_pos_of_pos hlb0 delta
  have hq1 : ((frameStep delta)^[k]
      (enterFocusMode name fpos flook lb s0)).lerpBase ^ delta < 1 := by
    rw [hlbk]
    exact Real.rpow_lt_one hlb0.le hlb1 hd
  obtain ⟨N, h1, h2, h3, h4, h5, h6, h7⟩ :=
    exitFocus_terminates delta ((frameStep delta)^[k] (enterFocusMode name fpos flook lb s0))
      hA hq0 hq1 hpm0
  refine ⟨N, ?_, ?_, h3, h4, ?_, h6, h7⟩
  · rw [h1, hrp0, V3.dist_self]
    norm_num
  · rw [h2, hrl0, V3.dist_self]
    norm_num
  · rw [h5, hrl0]

/-- Witness for C4: the concrete orbit start state, focusing on the booth
pose with `lerpBase = 0.008`, exiting immediately (`k = 0`), frames of one
second. -/
theorem focus_roundtrip_witness :
    ∃ N : ℕ,
      V3.dist ((frameStep 1)^[N] (exitFocusMode ((frameStep 1)^[0]
          (enterFocusMode "BOOTH_DJ" ⟨10, 4.5, 16⟩ ⟨19, 4.5, 0⟩ 0.008
            orbitStartState)))).pos orbitStartState.pos < 0.01 ∧
      V3.dist ((frameStep 1)^[N] (exitFocusMode ((frameStep 1)^[0]
          (enterFocusMode "BOOTH_DJ" ⟨10, 4.5, 16⟩ ⟨19, 4.5, 0⟩ 0.008
            orbitStartState)))).lookCurrent orbitStartState.lookCurrent < 0.01 ∧
      ((frameStep 1)^[N] (exitFocusMode ((frameStep 1)^[0]
          (enterFocusMode "BOOTH_DJ" ⟨10, 4.5, 16⟩ ⟨19, 4.5, 0⟩ 0.008
            orbitStartState)))).mode = CameraMode.orbit ∧
      ((frameStep 1)^[N] (exitFocusMode ((frameStep 1)^[0]
          (enterFocusMode "BOOTH_DJ" ⟨10, 4.5, 16⟩ ⟨19, 4.5, 0⟩ 0.008
            orbitStartState)))).controlsEnabled = true ∧
      ((frameStep 1)^[N] (exitFocusMode ((frameStep 1)^[0]
          (enterFocusMode "BOOTH_DJ" ⟨10, 4.5, 16⟩ ⟨19, 4.5, 0⟩ 0.008
            orbitStartState)))).controlsTarget = orbitStartState.lookCurrent ∧
      ((frameStep 1)^[N] (exitFocusMode ((frameStep 1)^[0]
          (enterFocusMode "BOOTH_DJ" ⟨10, 4.5, 16⟩ ⟨19, 4.5, 0⟩ 0.008
            orbitStartState)))).focusActive = false ∧
      ((frameStep 1)^[N] (exitFocusMode ((frameStep 1)^[0]
          (enterFocusMode "BOOTH_DJ" ⟨10, 4.5, 16⟩ ⟨19, 4.5, 0⟩ 0.008
            orbitStartState)))).focusTransitioning = false :=
  focus_roundtrip orbitStartState "BOOTH_DJ" ⟨10, 4.5, 16⟩ ⟨19, 4.5, 0⟩ 0.008 1 0
    rfl (by norm_num) (by norm_num) (by norm_num)

theorem biasedT_noon_pow :
    ((((6 : ℝ) / 13) ^ (0.8 : ℝ)) : ℝ) ^ (5 : ℕ) = ((6 : ℝ) / 13) ^ (4 : ℕ) := by
  rw [← Real.rpow_natCast (((6 : ℝ) / 13) ^ (0.8 : ℝ)) 5,
    ← Real.rpow_mul (by norm_num : (0 : ℝ) ≤ 6 / 13),
    ← Real.rpow_natCast ((6 : ℝ) / 13) 4]
  norm_num

theorem biasedT_noon_bounds :
    (1 : ℝ) / 2 < ((6 : ℝ) / 13) ^ (0.8 : ℝ) ∧ ((6 : ℝ) / 13) ^ (0.8 : ℝ) < 27 / 50 := by
  have ha0 : (0 : ℝ) ≤ ((6 : ℝ) / 13) ^ (0.8 : ℝ) := Real.rpow_nonneg (by norm_num) _
  constructor
  · apply lt_of_pow_lt_pow_left₀ 5 ha0
    rw [biasedT_noon_pow]
    norm_num
  · apply lt_of_pow_lt_pow_left₀ 5 (by norm_num : (0 : ℝ) ≤ 27 / 50)
    rw [biasedT_noon_pow]
    norm_num

theorem elevation_noon_bounds :
    (0.4 : ℝ) ≤ Real.sin (((6 : ℝ) / 13) ^ (0.8 : ℝ) * Real.pi) ∧
    Real.sin (((6 : ℝ) / 13) ^ (0.8 : ℝ) * Real.pi) ≤ 1 := by
  refine ⟨?_, Real.sin_le_one _⟩
  obtain ⟨hlow, hhigh⟩ := biasedT_noon_bounds
  set a := ((6 : ℝ) / 13) ^ (0.8 : ℝ) with ha
  have hpi0 : (0 : ℝ) < Real.pi := Real.pi_pos
  have hpi1 : Real.pi < 3.15 := by
    have := Real.pi_lt_d2
    linarith
  have hsin : Real.sin (a * Real.pi) = Real.cos (Real.pi / 2 - a * Real.pi) :=
    (Real.cos_pi_div_two_sub _).symm
  rw [hsin]
  have hb := Real.one_sub_sq_div_two_le_cos (x := Real.pi / 2 - a * Real.pi)
  have habs : |Real.pi / 2 - a * Real.pi| ≤ 0.126 := by
    rw [abs_le]
    constructor
    · nlinarith [mul_pos (show (0 : ℝ) < 3.15 - Real.pi by linarith)
        (show (0 : ℝ) < a - 1 / 2 by linarith)]
    · nlinarith [mul_pos hpi0 (show (0 : ℝ) < a - 1 / 2 by linarith)]
  have hx : (Real.pi / 2 - a * Real.pi) ^ 2 ≤ (0.126 : ℝ) ^ 2 := by
    rw [← sq_abs]
    exact pow_le_pow_left₀ (abs_nonneg _) habs 2
  nlinarith [hb, hx]

theorem RGB.dist_lerp_fst (a b : RGB) (f : ℝ) (hf : 0 ≤ f) :
    RGB.dist (RGB.lerp a b f) a = f * RGB.dist a b := by
  simp only [RGB.dist, RGB.lerp]
  have h : (a.r - (a.r + (b.r - a.r) * f)) ^ 2 + (a.g - (a.g + (b.g - a.g) * f)) ^ 2 +
      (a.b - (a.b + (b.b - a.b) * f)) ^ 2 =
      f ^ 2 * ((b.r - a.r) ^ 2 + (b.g - a.g) ^ 2 + (b.b - a.b) ^ 2) := by
    ring
  rw [h, Real.sqrt_mul (sq_nonneg _), Real.sqrt_sq hf]

theorem RGB.dist_lerp_snd (a b : RGB) (f : ℝ) (hf : f ≤ 1) :
    RGB.dist (RGB.lerp a b f) b = (1 - f) * RGB.dist a b := by
  simp only [RGB.dist, RGB.lerp]
  have h : (b.r - (a.r + (b.r - a.r) * f)) ^ 2 + (b.g - (a.g + (b.g - a.g) * f)) ^ 2 +
      (b.b - (a.b + (b.b - a.b) * f)) ^ 2 =
      (1 - f) ^ 2 * ((b.r - a.r) ^ 2 + (b.g - a.g) ^ 2 + (b.b - a.b) ^ 2) := by
    ring
  rw [h, Real.sqrt_mul (sq_nonneg _), Real.sqrt_sq (by linarith)]

theorem RGB.lerp_closer (a b : RGB) (f : ℝ) (h0 : 0 ≤ f) (hhalf : f < 1 / 2)
    (hab : 0 < RGB.dist a b) :
    RGB.dist (RGB.lerp a b f) a < RGB.dist (RGB.lerp a b f) b := by
  rw [RGB.dist_lerp_fst a b f h0, RGB.dist_lerp_snd a b f (by linarith)]
  exact mul_lt_mul_of_pos_right (by linarith) hab

/-- C7: with the default config, the sun sample at hour `12` has intensity
exactly `6` (the midday plateau), and its color — the morning→noon blend with
fraction `ct ^ 2.5 * 0.35`, capped at `0.35` — is nearer the morning color
than the noon color. -/
theorem sample_noon_plateau_and_color :
    (getSunPosition 12).intensity = 6 ∧
    RGB.dist (getSunPosition 12).color sunColors.2.1 <
      RGB.dist (getSunPosition 12).color sunColors.2.2 := by
  have hin : sunCycleConfig.sunrise ≤ (12 : ℝ) ∧ (12 : ℝ) ≤ sunCycleConfig.sunset := by
    norm_num [sunCycleConfig]
  have harg : ((12 : ℝ) - sunCycleConfig.sunrise) /
      (sunCycleConfig.sunset - sunCycleConfig.sunrise) = 6 / 13 := by
    norm_num [sunCycleConfig]
  obtain ⟨helev04, helev1⟩ := elevation_noon_bounds
  constructor
  · simp only [getSunPosition]
    rw [if_pos hin]
    rw [if_neg (by norm_num [sunCycleConfig]), if_neg (by norm_num [sunCycleConfig])]
  · simp only [getSunPosition]
    rw [if_pos hin, harg]
    rw [if_neg (not_lt.mpr helev04)]
    apply RGB.lerp_closer
    · exact mul_nonneg (Real.rpow_nonneg (div_nonneg (by linarith) (by norm_num)) _)
        (by norm_num)
    · have hbase1 : (Real.sin (((6 : ℝ) / 13) ^ (0.8 : ℝ) * Real.pi) - 0.4) / 0.6 ≤ 1 := by
        rw [div_le_one (by norm_num : (0 : ℝ) < 0.6)]
        linarith
      have hbase0 : 0 ≤ (Real.sin (((6 : ℝ) / 13) ^ (0.8 : ℝ) * Real.pi) - 0.4) / 0.6 :=
        div_nonneg (by linarith) (by norm_num)
      have hpow : ((Real.sin (((6 : ℝ) / 13) ^ (0.8 : ℝ) * Real.pi) - 0.4) / 0.6) ^
          (2.5 : ℝ) ≤ 1 := Real.rpow_le_one hbase0 hbase1 (by norm_num)
      have hpow0 : 0 ≤ ((Real.sin (((6 : ℝ) / 13) ^ (0.8 : ℝ) * Real.pi) - 0.4) / 0.6) ^
          (2.5 : ℝ) := Real.rpow_nonneg hbase0 _
      nlinarith
    · rw [RGB.dist]
      refine Real.sqrt_pos.mpr ?_
      norm_num [sunColors]
